import Mathlib

/-!
Verification of the Cubey renderer (src/Cubey.cpp) against its design
specification.  The per-frame rotation update, the glyph layout loop, the
matrix pipeline, the frame loop, the shader-program compiler and the font
loader are embedded as Lean functions; angles and screen coordinates are
modelled as exact rationals (the C++ floats at the values exercised by the
claims are exactly representable, and every arithmetic step involved is
exact in binary floating point as well).
-/

/-! ### Rotation state (Cubey.cpp lines 32-43 and 336-346) -/

/-- Held-key snapshot handed to `processInput` each frame (GLFW key queries). -/
structure Keys where
  escape : Bool
  up : Bool
  down : Bool
  left : Bool
  right : Bool

/-- No key held. -/
def noKeys : Keys := ⟨false, false, false, false, false⟩

/-- Only the UP arrow held. -/
def upHeld : Keys := ⟨false, true, false, false, false⟩

/-- Embedding of `processInput` (lines 32-43): ESCAPE requests window close,
UP/DOWN adjust `rotationX` by ∓2, LEFT/RIGHT adjust `rotationY` by ∓2.
Returns (closeRequested, rotationX, rotationY). -/
def processInput (k : Keys) (rotationX rotationY : ℚ) : Bool × ℚ × ℚ :=
  let closeRequested := k.escape
  let rx := if k.up then rotationX - 2 else rotationX
  let rx := if k.down then rx + 2 else rx
  let ry := if k.left then rotationY - 2 else rotationY
  let ry := if k.right then ry + 2 else ry
  (closeRequested, rx, ry)

/-- The pair of rotation angles mutated once per frame (lines 336-337). -/
structure RotationState where
  rotationX : ℚ
  rotationY : ℚ
  deriving DecidableEq

/-- Embedding of the wrap check `if (a > 360.0f || a < -360.0f) a = 0.0f`
(lines 345-346). -/
def wrapAngle (a : ℚ) : ℚ := if a > 360 ∨ a < -360 then 0 else a

/-- One frame of the rotation update (lines 342-346): key adjustments via
`processInput`, unconditional addition of the per-frame speeds, then the
wrap check on each angle. -/
def frameUpdate (k : Keys) (speedX speedY : ℚ) (s : RotationState) : RotationState :=
  let p := processInput k s.rotationX s.rotationY
  ⟨wrapAngle (p.2.1 + speedX), wrapAngle (p.2.2 + speedY)⟩

/-- `n` consecutive frames of the rotation update with a fixed key state and
the speeds drawn once at startup (lines 330-346). -/
def advanceFrames (k : Keys) (speedX speedY : ℚ) (n : ℕ) (s : RotationState) : RotationState :=
  (frameUpdate k speedX speedY)^[n] s

lemma wrapAngle_mem (a : ℚ) : -360 ≤ wrapAngle a ∧ wrapAngle a ≤ 360 := by
  unfold wrapAngle
  split_ifs with h
  · constructor <;> norm_num
  · push_neg at h
    exact ⟨h.2, h.1⟩

lemma frameUpdate_upHeld (a b : ℚ) :
    frameUpdate upHeld (1/2) (1/2) ⟨a, b⟩ =
      ⟨wrapAngle (a - 2 + 1/2), wrapAngle (b + 1/2)⟩ := by
  simp [frameUpdate, processInput, upHeld]

lemma frameUpdate_noKeys (sx sy a b : ℚ) :
    frameUpdate noKeys sx sy ⟨a, b⟩ = ⟨wrapAngle (a + sx), wrapAngle (b + sy)⟩ := by
  simp [frameUpdate, processInput, noKeys]

lemma advanceFrames_upHeld_closed :
    ∀ n : ℕ, n ≤ 240 →
      advanceFrames upHeld (1/2) (1/2) n ⟨0, 0⟩ = ⟨-(3 * n) / 2, n / 2⟩ := by
  intro n
  induction n with
  | zero => intro _; simp [advanceFrames]
  | succ k ih =>
    intro hk
    have hk' : k ≤ 240 := by omega
    unfold advanceFrames at *
    rw [Function.iterate_succ_apply', ih hk', frameUpdate_upHeld]
    have hkq : (k : ℚ) ≤ 239 := by exact_mod_cast (by omega : k ≤ 239)
    have hkq0 : (0 : ℚ) ≤ (k : ℚ) := by positivity
    have hx : ¬ ((-(3 * (k : ℚ)) / 2 - 2 + 1/2 > 360) ∨ (-(3 * (k : ℚ)) / 2 - 2 + 1/2 < -360)) := by
      push_neg
      constructor <;> nlinarith
    have hy : ¬ (((k : ℚ) / 2 + 1/2 > 360) ∨ ((k : ℚ) / 2 + 1/2 < -360)) := by
      push_neg
      constructor <;> nlinarith
    rw [wrapAngle, if_neg hx, wrapAngle, if_neg hy]
    have : ((k + 1 : ℕ) : ℚ) = (k : ℚ) + 1 := by push_cast; ring
    rw [this]
    simp only [RotationState.mk.injEq]
    constructor <;> ring

lemma advanceFrames_noKeys_closed :
    ∀ n : ℕ, n ≤ 240 →
      advanceFrames noKeys 1 (3/2) n ⟨0, 0⟩ = ⟨n, 3 * n / 2⟩ := by
  intro n
  induction n with
  | zero => intro _; simp [advanceFrames]
  | succ k ih =>
    intro hk
    have hk' : k ≤ 240 := by omega
    unfold advanceFrames at *
    rw [Function.iterate_succ_apply', ih hk', frameUpdate_noKeys]
    have hkq : (k : ℚ) ≤ 239 := by exact_mod_cast (by omega : k ≤ 239)
    have hkq0 : (0 : ℚ) ≤ (k : ℚ) := by positivity
    have hx : ¬ (((k : ℚ) + 1 > 360) ∨ ((k : ℚ) + 1 < -360)) := by
      push_neg
      constructor <;> nlinarith
    have hy : ¬ ((3 * (k : ℚ) / 2 + 3/2 > 360) ∨ (3 * (k : ℚ) / 2 + 3/2 < -360)) := by
      push_neg
      constructor <;> nlinarith
    rw [wrapAngle, if_neg hx, wrapAngle, if_neg hy]
    have : ((k + 1 : ℕ) : ℚ) = (k : ℚ) + 1 := by push_cast; ring
    rw [this]
    simp only [RotationState.mk.injEq]
    constructor <;> ring

/-- C1 (amended): after any single rotation update (key adjustments, speed
addition, wrap check), each angle lies in the closed interval
[-360, 360].  The strict lower bound claimed by the spec fails: -360 is
attainable (see the counterexample). -/
theorem rotation_update_angle_bounds (k : Keys) (speedX speedY : ℚ) (s : RotationState) :
    (-360 ≤ (frameUpdate k speedX speedY s).rotationX ∧
      (frameUpdate k speedX speedY s).rotationX ≤ 360) ∧
    (-360 ≤ (frameUpdate k speedX speedY s).rotationY ∧
      (frameUpdate k speedX speedY s).rotationY ≤ 360) := by
  unfold frameUpdate
  exact ⟨wrapAngle_mem _, wrapAngle_mem _⟩

/-- C1 counterexample: with speed 0.5 on each axis (inside the startup range
[0.1, 2.0)) and the UP arrow held, 240 frames starting from the initial
angles (0, 0) leave `rotationX` at exactly -360 — the wrap check
`> 360 ∨ < -360` does not fire at the boundary, so the claimed strict bound
`-360 < angle` is violated by a reachable rotation update. -/
theorem rotation_strict_lower_bound_fails :
    (advanceFrames upHeld (1/2) (1/2) 240 ⟨0, 0⟩).rotationX = -360 ∧
    ¬ (-360 < (advanceFrames upHeld (1/2) (1/2) 240 ⟨0, 0⟩).rotationX) := by
  have h := advanceFrames_upHeld_closed 240 le_rfl
  rw [h]
  rw [show ((240 : ℕ) : ℚ) = 240 from by norm_cast]
  norm_num

/-- C2: whenever the already-incremented angle (after key adjustments and
speed addition) exceeds 360 or falls below -360, the wrap check resets it to
exactly 0 on that frame — not to the angle modulo 360; in particular
rotationX = 359 with speed 2 and no input yields rotationX = 0. -/
theorem wrap_resets_to_zero :
    (∀ (k : Keys) (speedX speedY : ℚ) (s : RotationState),
      ((processInput k s.rotationX s.rotationY).2.1 + speedX > 360 ∨
        (processInput k s.rotationX s.rotationY).2.1 + speedX < -360) →
      (frameUpdate k speedX speedY s).rotationX = 0) ∧
    (∀ (k : Keys) (speedX speedY : ℚ) (s : RotationState),
      ((processInput k s.rotationX s.rotationY).2.2 + speedY > 360 ∨
        (processInput k s.rotationX s.rotationY).2.2 + speedY < -360) →
      (frameUpdate k speedX speedY s).rotationY = 0) ∧
    (frameUpdate noKeys 2 (3/2) ⟨359, 0⟩).rotationX = 0 := by
  refine ⟨?_, ?_, ?_⟩
  · intro k sx sy s h
    unfold frameUpdate wrapAngle
    simp only [if_pos h]
  · intro k sx sy s h
    unfold frameUpdate wrapAngle
    simp only [if_pos h]
  · rw [frameUpdate_noKeys]
    norm_num [wrapAngle]

/-- C2 witness: the end-to-end instance, obtained by applying the general
reset theorem at rotationX = 359, speed 2, no keys held. -/
theorem wrap_resets_to_zero_witness :
    (frameUpdate noKeys 2 (3/2) ⟨359, 0⟩).rotationX = 0 :=
  wrap_resets_to_zero.1 noKeys 2 (3/2) ⟨359, 0⟩
    (Or.inl (by norm_num [processInput, noKeys]))

/-- C3: from the initial angles (0, 0) with speeds 1 and 1.5 degrees per
frame, 10 frames with no key input give exactly rotationX = 10 and
rotationY = 15, and every intermediate frame i ≤ 10 carries the exact
unwrapped values (i, 1.5·i) — no wrap occurs. -/
theorem ten_frames_no_input :
    advanceFrames noKeys 1 (3/2) 10 ⟨0, 0⟩ = ⟨10, 15⟩ ∧
    ∀ i : Fin 11, advanceFrames noKeys 1 (3/2) i.val ⟨0, 0⟩ = ⟨i.val, 3 * i.val / 2⟩ := by
  constructor
  · have h := advanceFrames_noKeys_closed 10 (by omega)
    rw [h]
    rw [show ((10 : ℕ) : ℚ) = 10 from by norm_cast]
    norm_num
  · intro i
    exact advanceFrames_noKeys_closed i.val (by omega)

/-! ### Glyph layout (Cubey.cpp lines 186-219, `renderText`) -/

/-- Baked per-glyph record (`stbtt_bakedchar`): atlas box corners in texels,
offsets of the box from the pen, and the horizontal pen advance. -/
structure BakedChar where
  x0 : ℚ
  y0 : ℚ
  x1 : ℚ
  y1 : ℚ
  xoff : ℚ
  yoff : ℚ
  xadvance : ℚ

/-- Screen-space glyph quad (`stbtt_aligned_quad`): screen rect corners and
normalized texture coordinates, exactly the data expanded into the six
vertices uploaded per glyph at lines 200-208. -/
structure AlignedQuad where
  x0 : ℚ
  y0 : ℚ
  s0 : ℚ
  t0 : ℚ
  x1 : ℚ
  y1 : ℚ
  s1 : ℚ
  t1 : ℚ
  deriving DecidableEq

/-- Modelled from the spec: the rasterizer collaborator `stbtt_GetBakedQuad`
(stb_truetype, not part of this repository).  Per the spec's TextRenderer
contract it emits one quad positioned at the current pen location using the
glyph's atlas box (with the rasterizer's pixel snapping of the quad origin)
and advances the pen by the glyph's horizontal advance; the returned pen
deltas are authoritative.  Returns (quad, new pen x, new pen y). -/
def getBakedQuad (b : BakedChar) (pw ph : ℚ) (x y : ℚ) : AlignedQuad × ℚ × ℚ :=
  let rx : ℚ := (⌊x + b.xoff + 1/2⌋ : ℤ)
  let ry : ℚ := (⌊y + b.yoff + 1/2⌋ : ℤ)
  (⟨rx, ry, b.x0 / pw, b.y0 / ph, rx + (b.x1 - b.x0), ry + (b.y1 - b.y0), b.x1 / pw, b.y1 / ph⟩,
    x + b.xadvance, y)

/-- Embedding of the character loop of `renderText` (lines 194-216): for each
character code, if it lies in the baked range [32, 128) a quad is produced
from `charData[c - 32]` and the pen is advanced; otherwise the character is
skipped entirely.  Returns (quads in order, final pen x, final pen y). -/
def renderTextLoop (cd : Fin 96 → BakedChar) : List ℤ → ℚ → ℚ → List AlignedQuad × ℚ × ℚ
  | [], x, y => ([], x, y)
  | c :: cs, x, y =>
    if h : 32 ≤ c ∧ c < 128 then
      let r := getBakedQuad (cd ⟨(c - 32).toNat, by omega⟩) 512 512 x y
      let rest := renderTextLoop cd cs r.2.1 r.2.2
      (r.1 :: rest.1, rest.2.1, rest.2.2)
    else
      renderTextLoop cd cs x y

/-- Embedding of `renderText(text, x, y, scale)` (lines 187-219): the layout
loop over the text from the start pen position.  The `scale` parameter is a
parameter of the C++ function that its body never reads; it is kept here
unused exactly as in the source. -/
def renderText (cd : Fin 96 → BakedChar) (text : List ℤ) (x y scale : ℚ) :
    List AlignedQuad × ℚ × ℚ :=
  renderTextLoop cd text x y

/-- Concrete baked-glyph table used to witness the layout theorems. -/
def sampleCharData : Fin 96 → BakedChar :=
  fun i => ⟨(i : ℚ), 0, (i : ℚ) + 7, 12, 1/2, -3, (i : ℚ) + 5⟩

lemma renderTextLoop_skips (cd : Fin 96 → BakedChar) :
    ∀ (text : List ℤ), (∀ c ∈ text, c < 32 ∨ 128 ≤ c) →
      ∀ x y, renderTextLoop cd text x y = ([], x, y) := by
  intro text
  induction text with
  | nil => intro _ x y; rfl
  | cons c cs ih =>
    intro h x y
    have hc : ¬ (32 ≤ c ∧ c < 128) := by
      rcases h c (List.mem_cons_self c cs) with h1 | h1 <;> omega
    rw [renderTextLoop, dif_neg hc]
    exact ih (fun d hd => h d (List.mem_cons_of_mem c hd)) x y

/-- C4: laying out the empty string yields no quads and leaves the pen at the
start position, and laying out any text whose character codes all lie outside
the baked range [32, 128) also yields no quads and leaves the pen unchanged. -/
theorem layout_empty_and_out_of_range :
    (∀ (cd : Fin 96 → BakedChar) (x y scale : ℚ),
      renderText cd [] x y scale = ([], x, y)) ∧
    (∀ (cd : Fin 96 → BakedChar) (text : List ℤ) (x y scale : ℚ),
      (∀ c ∈ text, c < 32 ∨ 128 ≤ c) →
      renderText cd text x y scale = ([], x, y)) := by
  refine ⟨fun _ _ _ _ => rfl, ?_⟩
  intro cd text x y scale h
  exact renderTextLoop_skips cd text h x y

/-- C4 witness: the empty string and a string of out-of-range codes (a byte
above 127 read as a negative signed char, a control character, and a
negative value) both lay out to no quads with the pen left at (3, 4). -/
theorem layout_empty_and_out_of_range_witness :
    renderText sampleCharData [] 3 4 1 = ([], 3, 4) ∧
    renderText sampleCharData [-56, 7, 130] 3 4 1 = ([], 3, 4) :=
  ⟨layout_empty_and_out_of_range.1 sampleCharData 3 4 1,
    layout_empty_and_out_of_range.2 sampleCharData [-56, 7, 130] 3 4 1
      (by intro c hc; fin_cases hc <;> norm_num)⟩

/-- C5: pen advance is deterministic and additive — laying out "AB" (codes
65, 66) from any start position produces as its second quad exactly the
first quad of laying out "B" from the pen position at which laying out "A"
ended, and in particular the second quad's origin agrees. -/
theorem layout_pen_additive (cd : Fin 96 → BakedChar) (x y scale : ℚ) :
    ((renderText cd [65, 66] x y scale).1[1]? =
      (renderText cd [66] (renderText cd [65] x y scale).2.1
        (renderText cd [65] x y scale).2.2 scale).1[0]?) ∧
    (((renderText cd [65, 66] x y scale).1[1]?).map (fun q => (q.x0, q.y0)) =
      ((renderText cd [66] (renderText cd [65] x y scale).2.1
        (renderText cd [65] x y scale).2.2 scale).1[0]?).map (fun q => (q.x0, q.y0))) := by
  constructor <;>
    simp [renderText, renderTextLoop, getBakedQuad]

/-- C10: the `scale` parameter of `renderText` has no effect on its output —
for any glyph table, text and start position, any two scale values produce
the identical quad sequence and final pen position. -/
theorem renderText_scale_has_no_effect (cd : Fin 96 → BakedChar) (text : List ℤ)
    (x y scale scale' : ℚ) :
    renderText cd text x y scale = renderText cd text x y scale' := rfl

/-! ### Model-view-projection composite (Cubey.cpp lines 356-361) -/

/-- 4x4 transform matrix over exact scalars. -/
abbrev M4 := Matrix (Fin 4) (Fin 4) ℚ

/-- Modelled from the spec: the matrix-library collaborator (glm, not part of
this repository) is a black box producing 4x4 transform matrices from
standard parameters.  This is glm's axis-angle rotation matrix (Rodrigues
form) for a unit axis (ax, ay, az), written in row/column form with the
angle represented by its cosine `c` and sine `s` (the trigonometric
evaluation is part of the black box). -/
def glmRotateMat (c s ax ay az : ℚ) : M4 :=
  !![c + (1-c)*ax*ax, (1-c)*ay*ax - s*az, (1-c)*az*ax + s*ay, 0;
     (1-c)*ax*ay + s*az, c + (1-c)*ay*ay, (1-c)*az*ay - s*ax, 0;
     (1-c)*ax*az - s*ay, (1-c)*ay*az + s*ax, c + (1-c)*az*az, 0;
     0, 0, 0, 1]

/-- Modelled from the spec: `glm::rotate(m, angle, axis) = m * R(angle, axis)`
with the angle given by its cosine and sine. -/
def glmRotate (m : M4) (c s ax ay az : ℚ) : M4 := m * glmRotateMat c s ax ay az

/-- Embedding of the model-matrix construction (lines 356-358): start from
the identity, rotate by `rotationX` about the X axis, then by `rotationY`
about the Y axis; each angle is carried as its (cosine, sine) pair. -/
def modelMatrix (cx sx cy sy : ℚ) : M4 :=
  glmRotate (glmRotate 1 cx sx 1 0 0) cy sy 0 1 0

/-- Embedding of the composite computation `mvp = projection * view * model`
(line 361). -/
def mvpMatrix (P V : M4) (cx sx cy sy : ℚ) : M4 := P * V * modelMatrix cx sx cy sy

/-- Modelled from the spec: the standard rotation about the X axis with
cosine `c` and sine `s` ("rotateX(angleX)"). -/
def rotationXMat (c s : ℚ) : M4 :=
  !![1, 0, 0, 0; 0, c, -s, 0; 0, s, c, 0; 0, 0, 0, 1]

/-- Modelled from the spec: the standard rotation about the Y axis with
cosine `c` and sine `s` ("rotateY(angleY)"). -/
def rotationYMat (c s : ℚ) : M4 :=
  !![c, 0, s, 0; 0, 1, 0, 0; -s, 0, c, 0; 0, 0, 0, 1]

lemma glmRotateMat_xAxis (c s : ℚ) : glmRotateMat c s 1 0 0 = rotationXMat c s := by
  unfold glmRotateMat rotationXMat
  ext i j
  fin_cases i <;> fin_cases j <;> simp [Matrix.vecHead, Matrix.vecTail] <;> ring

lemma glmRotateMat_yAxis (c s : ℚ) : glmRotateMat c s 0 1 0 = rotationYMat c s := by
  unfold glmRotateMat rotationYMat
  ext i j
  fin_cases i <;> fin_cases j <;> simp [Matrix.vecHead, Matrix.vecTail] <;> ring

lemma rotationXMat_zero : rotationXMat 1 0 = (1 : M4) := by
  unfold rotationXMat
  ext i j
  fin_cases i <;> fin_cases j <;> simp [Matrix.one_apply, Matrix.vecHead, Matrix.vecTail]

lemma rotationYMat_zero : rotationYMat 1 0 = (1 : M4) := by
  unfold rotationYMat
  ext i j
  fin_cases i <;> fin_cases j <;> simp [Matrix.one_apply, Matrix.vecHead, Matrix.vecTail]

/-- C6: the composite sent to the cube shader is exactly
projection * view * model with model = rotateX(angleX) * rotateY(angleY)
applied to the identity (angles carried as cosine/sine pairs), and at
angleX = angleY = 0 (cosine 1, sine 0) it collapses to P * V. -/
theorem mvp_composite (P V : M4) (cx sx cy sy : ℚ) :
    mvpMatrix P V cx sx cy sy = P * V * (rotationXMat cx sx * rotationYMat cy sy) ∧
    mvpMatrix P V 1 0 1 0 = P * V := by
  have hmodel : ∀ a b d e : ℚ,
      modelMatrix a b d e = rotationXMat a b * rotationYMat d e := by
    intro a b d e
    unfold modelMatrix glmRotate
    rw [glmRotateMat_xAxis, glmRotateMat_yAxis, one_mul]
  constructor
  · rw [mvpMatrix, hmodel]
  · rw [mvpMatrix, hmodel, rotationXMat_zero, rotationYMat_zero, one_mul, mul_one]

/-! ### Frame loop (Cubey.cpp lines 340-391) -/

/-- Observable steps of one render-loop iteration, in the order they are
performed; data-carrying constructors record which values each step uses. -/
inductive FrameEvent where
  | pollInput
  | advanceRotation (s : RotationState)
  | clearColorDepthBuffers
  | drawCubeDepthTested (rotationX rotationY : ℚ)
  | disableDepthTest
  | recomputeOrtho (fbWidth fbHeight : ℤ)
  | drawStatusTextBlended (rotationX rotationY : ℚ)
  | presentFrame
  | pollCloseRequest
  deriving DecidableEq

/-- Embedding of the loop body (lines 341-390): input poll and rotation
update, clear of the color and depth buffers, cube draw with depth testing
using the composite built from the just-updated angles, depth-test disable,
orthographic projection recomputed from the framebuffer size queried this
same iteration, the status text formatted from the current angles and drawn
with blending, buffer swap, event poll.  Returns the updated rotation state
and the ordered event trace of the iteration. -/
def runFrame (k : Keys) (speedX speedY : ℚ) (fbWidth fbHeight : ℤ)
    (s : RotationState) : RotationState × List FrameEvent :=
  let s' := frameUpdate k speedX speedY s
  (s', [FrameEvent.pollInput,
        FrameEvent.advanceRotation s',
        FrameEvent.clearColorDepthBuffers,
        FrameEvent.drawCubeDepthTested s'.rotationX s'.rotationY,
        FrameEvent.disableDepthTest,
        FrameEvent.recomputeOrtho fbWidth fbHeight,
        FrameEvent.drawStatusTextBlended s'.rotationX s'.rotationY,
        FrameEvent.presentFrame,
        FrameEvent.pollCloseRequest])

/-- The two loop states: the `while (!glfwWindowShouldClose(window))` loop is
running, or it has stopped. -/
inductive LoopState where
  | running
  | stopped
  deriving DecidableEq

/-- One check-and-iterate step of the render loop: when stopped, nothing
happens; when running, a pending close request (ESC or window close) stops
the loop before any further frame, and otherwise one full frame runs. -/
def loopStep (closeRequested : Bool) (k : Keys) (speedX speedY : ℚ)
    (fbWidth fbHeight : ℤ) :
    LoopState × RotationState → LoopState × RotationState × List FrameEvent
  | (LoopState.stopped, s) => (LoopState.stopped, s, [])
  | (LoopState.running, s) =>
    if closeRequested then (LoopState.stopped, s, [])
    else
      let r := runFrame k speedX speedY fbWidth fbHeight s
      (LoopState.running, r.1, r.2)

/-- C7: each running iteration performs, strictly in order, input polling,
the rotation advance, the buffer clear, the depth-tested cube draw using the
angles updated this frame, the depth-test disable, the orthographic
recompute from the framebuffer size queried this frame, the blended status
text drawn from the current angles, the present, and the close-request
poll; and the loop only transitions from running to stopped, exactly on an
external close request, while a stopped loop stays stopped. -/
theorem frame_loop_order_and_transitions (k : Keys) (speedX speedY : ℚ)
    (fbWidth fbHeight : ℤ) (s : RotationState) :
    ((runFrame k speedX speedY fbWidth fbHeight s).2 =
      [FrameEvent.pollInput,
       FrameEvent.advanceRotation (frameUpdate k speedX speedY s),
       FrameEvent.clearColorDepthBuffers,
       FrameEvent.drawCubeDepthTested (frameUpdate k speedX speedY s).rotationX
         (frameUpdate k speedX speedY s).rotationY,
       FrameEvent.disableDepthTest,
       FrameEvent.recomputeOrtho fbWidth fbHeight,
       FrameEvent.drawStatusTextBlended (frameUpdate k speedX speedY s).rotationX
         (frameUpdate k speedX speedY s).rotationY,
       FrameEvent.presentFrame,
       FrameEvent.pollCloseRequest]) ∧
    ((runFrame k speedX speedY fbWidth fbHeight s).1 = frameUpdate k speedX speedY s) ∧
    (loopStep true k speedX speedY fbWidth fbHeight (LoopState.running, s) =
      (LoopState.stopped, s, [])) ∧
    (loopStep false k speedX speedY fbWidth fbHeight (LoopState.running, s) =
      (LoopState.running, runFrame k speedX speedY fbWidth fbHeight s)) ∧
    (∀ b : Bool, loopStep b k speedX speedY fbWidth fbHeight (LoopState.stopped, s) =
      (LoopState.stopped, s, [])) := by
  refine ⟨rfl, rfl, ?_, ?_, fun b => rfl⟩
  · simp [loopStep]
  · simp [loopStep, runFrame]

/-! ### Shader program compilation (Cubey.cpp lines 101-147) -/

/-- Outcome oracle for the GL driver: whether each compile and the link
succeed, and the diagnostic text each stage would report. -/
structure GLOracle where
  vertexCompileOk : Bool
  fragmentCompileOk : Bool
  linkOk : Bool
  vertexInfoLog : String
  fragmentInfoLog : String
  programInfoLog : String

/-- Observable GL calls and log writes made by `createShaderProgram`. -/
inductive GLAction where
  | createShader (id : ℕ)
  | compileShader (id : ℕ)
  | logCompileError (text : String)
  | createProgram (id : ℕ)
  | attachShader (program shader : ℕ)
  | linkProgram (id : ℕ)
  | logLinkError (text : String)
  | deleteShader (id : ℕ)
  deriving DecidableEq

/-- Embedding of `createShaderProgram` (lines 101-147): compile the vertex
shader (handle 1), log its info log on failure and continue; compile the
fragment shader (handle 2) likewise; create the program (handle 3), attach
both shaders and link, logging on link failure; finally delete both shader
objects unconditionally and return the program handle.  Returns (program
handle, ordered call trace). -/
def createShaderProgram (o : GLOracle) : ℕ × List GLAction :=
  let vertexDiag := if o.vertexCompileOk then [] else [GLAction.logCompileError o.vertexInfoLog]
  let fragmentDiag := if o.fragmentCompileOk then [] else [GLAction.logCompileError o.fragmentInfoLog]
  let linkDiag := if o.linkOk then [] else [GLAction.logLinkError o.programInfoLog]
  (3, [GLAction.createShader 1, GLAction.compileShader 1] ++ vertexDiag ++
      [GLAction.createShader 2, GLAction.compileShader 2] ++ fragmentDiag ++
      [GLAction.createProgram 3, GLAction.attachShader 3 1, GLAction.attachShader 3 2,
        GLAction.linkProgram 3] ++ linkDiag ++
      [GLAction.deleteShader 1, GLAction.deleteShader 2])

/-- C8: whatever the compile and link outcomes, `createShaderProgram` still
links and returns the program handle (it never aborts); when a stage fails
to compile, that stage's diagnostic text is logged; and the trace always
ends by deleting both per-stage shader objects, after the link. -/
theorem shader_compile_logs_and_cleanup (o : GLOracle) :
    ((createShaderProgram o).1 = 3) ∧
    (o.vertexCompileOk = false →
      GLAction.logCompileError o.vertexInfoLog ∈ (createShaderProgram o).2) ∧
    (o.fragmentCompileOk = false →
      GLAction.logCompileError o.fragmentInfoLog ∈ (createShaderProgram o).2) ∧
    (GLAction.linkProgram 3 ∈ (createShaderProgram o).2) ∧
    (∃ pre, (createShaderProgram o).2 =
      pre ++ [GLAction.deleteShader 1, GLAction.deleteShader 2]) := by
  refine ⟨rfl, ?_, ?_, ?_, ⟨_, rfl⟩⟩
  · intro h
    simp [createShaderProgram, h]
  · intro h
    simp [createShaderProgram, h]
  · simp [createShaderProgram]

/-- C8 witness: with a failing vertex stage and succeeding fragment and link
stages, the diagnostic is logged, the program handle is still returned, and
both shader objects are deleted. -/
theorem shader_compile_logs_and_cleanup_witness :
    GLAction.logCompileError "vertex diagnostic" ∈
      (createShaderProgram ⟨false, true, true, "vertex diagnostic", "", ""⟩).2 ∧
    (createShaderProgram ⟨false, true, true, "vertex diagnostic", "", ""⟩).1 = 3 ∧
    (∃ pre, (createShaderProgram ⟨false, true, true, "vertex diagnostic", "", ""⟩).2 =
      pre ++ [GLAction.deleteShader 1, GLAction.deleteShader 2]) := by
  have h := shader_compile_logs_and_cleanup ⟨false, true, true, "vertex diagnostic", "", ""⟩
  exact ⟨h.2.1 rfl, h.1, h.2.2.2.2⟩

/-! ### Font loading (Cubey.cpp lines 150-184) -/

/-- Outcome of a `loadFont` run.  The source has no error paths: on an
unopenable file it operates on the NULL stream, and it ignores the bake's
fit result. -/
inductive LoadFontOutcome where
  | atlasLoaded (allGlyphsFit : Bool)
  | invalidFileAccess
  deriving DecidableEq

/-- Embedding of `loadFont` (lines 150-184): the `fopen` result is an
`Option` of the file's bytes.  When the file cannot be opened the code
calls `fseek`/`ftell`/`fread` on the NULL stream without any check
(`invalidFileAccess`); when it can, `stbtt_BakeFontBitmap` runs and its
does-the-range-fit result (`bakeFits`) is discarded, the atlas texture is
created and the function returns normally either way. -/
def loadFont (file : Option (List ℕ)) (bakeFits : Bool) : LoadFontOutcome :=
  match file with
  | none => LoadFontOutcome.invalidFileAccess
  | some _ => LoadFontOutcome.atlasLoaded bakeFits

/-- C9 divergence: the claim requires `loadFont` to fail with
`FontLoadError` on an unopenable file and with `BakeOverflowError` when the
glyph range does not fit, but the code has no such paths — an unopenable
file leads to unchecked use of the NULL stream, and a non-fitting bake still
ends in `atlasLoaded` with the overflow flag discarded. -/
theorem loadFont_has_no_error_paths :
    loadFont none true = LoadFontOutcome.invalidFileAccess ∧
    ∀ bytes : List ℕ, loadFont (some bytes) false = LoadFontOutcome.atlasLoaded false :=
  ⟨rfl, fun _ => rfl⟩
